import Mathlib

/-!
Verification of `rgb_depth_sync_application.cc` (Tango RGB/depth sync example).

The C++ class `SynchronizationApplication` is shallowly embedded as a pure
state type `AppState` together with one Lean function per member function.
The closed vendor SDK is modelled by an environment record `Env` that fixes
the outcome of every SDK call made during one invocation of an operation.
Each operation returns its updated state, its C++ return value where it has
one, and a trace of observable events: the SDK calls it issues, the log
messages it emits, and the rendering calls it delegates to the helper
objects `depth_image_` and `main_scene_` (whose implementations live outside
this translation unit and are therefore recorded as events, not interpreted).

Machine doubles and floats carry no arithmetic in this file (timestamps and
matrix entries are only moved around and multiplied symbolically), so they
are embedded as `Rat`.
-/

namespace RgbDepthSync

/-- The SDK status type `TangoErrorType`: `TANGO_SUCCESS`, `TANGO_ERROR`,
`TANGO_INVALID`. -/
inductive TangoErrorType where
  | success
  | error
  | invalid
deriving DecidableEq, Repr

/-- The SDK pose status type `TangoPoseStatusType`. -/
inductive TangoPoseStatusType where
  | initializing
  | valid
  | invalid
  | unknown
deriving DecidableEq, Repr

/-- The SDK coordinate frames used by this application. -/
inductive CoordinateFrame where
  | startOfService
  | cameraDepth
  | cameraColor
  | areaDescription
  | device
deriving DecidableEq, Repr

/-- The SDK type `TangoCoordinateFramePair`: a (base, target) specifier. -/
structure CoordinateFramePair where
  base : CoordinateFrame
  target : CoordinateFrame
deriving DecidableEq, Repr

/-- The camera ids used by this application (`TANGO_CAMERA_COLOR`). -/
inductive CameraId where
  | color
  | depth
  | fisheye
deriving DecidableEq, Repr

/-- A 4x4 matrix over `Rat`, standing in for `glm::mat4`. -/
def Mat4 : Type := Fin 4 → Fin 4 → Rat

instance : DecidableEq Mat4 := by
  unfold Mat4
  infer_instance

/-- Standard 4x4 matrix product, as performed by `glm::mat4` `operator*`. -/
def Mat4.mul (a b : Mat4) : Mat4 := fun i j =>
  a i 0 * b 0 j + a i 1 * b 1 j + a i 2 * b 2 j + a i 3 * b 3 j

/-- The identity matrix. -/
def Mat4.id : Mat4 := fun i j => if i = j then 1 else 0

/-- The SDK pose record `TangoPoseData`: only the fields this translation unit reads. -/
structure TangoPoseData where
  status_code : TangoPoseStatusType
  timestamp : Rat
  translation : Fin 3 → Rat
  orientation : Fin 4 → Rat
deriving DecidableEq

/-- The SDK point-cloud buffer `TangoXYZij`: a point-cloud buffer; only the fields this translation
unit reads. -/
structure TangoXYZij where
  timestamp : Rat
  xyz_count : Int
deriving DecidableEq, Repr

/-- The SDK record `TangoCameraIntrinsics`: opaque to this translation unit, passed along
whole. -/
structure TangoCameraIntrinsics where
  width : Int
  height : Int
  fx : Rat
  fy : Rat
  cx : Rat
  cy : Rat
deriving DecidableEq, Repr

/-- Handles (`TangoConfig`, `TangoSupportPointCloudManager*`) are opaque
pointers; embedded as naturals. -/
abbrev Handle := Nat

/-- The outcome of every SDK call an operation may issue.  One `Env` value
fixes the closed SDK's behaviour for one invocation. -/
structure Env where
  /-- Status returned by `TangoSupport_updatePointCloud`. -/
  updatePointCloudStatus : TangoErrorType
  /-- Status returned by `TangoSupport_GetTangoVersion`. -/
  getTangoVersionStatus : TangoErrorType
  /-- Version written by `TangoSupport_GetTangoVersion`. -/
  tangoVersion : Int
  /-- Status returned by `TangoService_setBinder`. -/
  setBinderStatus : TangoErrorType
  /-- Result of `TangoService_getConfig` (`none` models a null handle). -/
  getConfigResult : Option Handle
  /-- Status returned by `TangoConfig_setBool`, by key. -/
  setBoolStatus : String → TangoErrorType
  /-- Status returned by `TangoConfig_getInt32`. -/
  getInt32Status : TangoErrorType
  /-- Value written by `TangoConfig_getInt32` for max_point_cloud_elements. -/
  maxPointCloudElements : Int
  /-- Status returned by `TangoSupport_createPointCloudManager`. -/
  createPointCloudManagerStatus : TangoErrorType
  /-- Manager handle written by `TangoSupport_createPointCloudManager`. -/
  createdPointCloudManager : Handle
  /-- Status returned by `TangoService_connectTextureId`. -/
  connectTextureIdStatus : TangoErrorType
  /-- Status returned by `TangoService_connectOnXYZijAvailable`. -/
  connectOnXYZijAvailableStatus : TangoErrorType
  /-- Status returned by `TangoService_connect`. -/
  connectStatus : TangoErrorType
  /-- Status returned by `TangoService_getCameraIntrinsics`. -/
  getCameraIntrinsicsStatus : TangoErrorType
  /-- Intrinsics written by `TangoService_getCameraIntrinsics`. -/
  cameraIntrinsics : TangoCameraIntrinsics
  /-- Buffer written by `TangoSupport_getLatestPointCloudAndNewDataFlag`. -/
  latestPointCloud : TangoXYZij
  /-- New-data flag written by `TangoSupport_getLatestPointCloudAndNewDataFlag`. -/
  newDataFlag : Bool
  /-- Status returned by `TangoService_updateTexture`. -/
  updateTextureStatus : TangoErrorType
  /-- Timestamp written by `TangoService_updateTexture` into its out
  parameter (on failure this is whatever the variable holds, 0.0 if the SDK
  leaves it untouched). -/
  colorTimestampOut : Rat
  /-- Status and pose written by `TangoService_getPoseAtTime`, as a function
  of the requested timestamp and frame pair. -/
  getPoseAtTime : Rat → CoordinateFramePair → TangoErrorType × TangoPoseData
  /-- The helper `util::GetMatrixFromPose` (defined in `util.cc`, outside this
  translation unit): the pose-to-matrix conversion, uninterpreted. -/
  matrixFromPose : TangoPoseData → Mat4

/-- An observable event: an SDK call, a `LOGE` message, or a delegated
rendering call. -/
inductive Event where
  | updatePointCloud (manager : Option Handle) (cloud : TangoXYZij)
      (status : TangoErrorType)
  | getTangoVersion (status : TangoErrorType)
  | setBinder (status : TangoErrorType)
  | getConfig (result : Option Handle)
  | setBool (key : String) (value : Bool) (status : TangoErrorType)
  | getInt32 (key : String) (status : TangoErrorType)
  | createPointCloudManager (maxElements : Int) (status : TangoErrorType)
  | connectTextureId (camera : CameraId) (textureId : Nat)
      (status : TangoErrorType)
  | connectOnXYZijAvailable (status : TangoErrorType)
  | connect (status : TangoErrorType)
  | getCameraIntrinsics (camera : CameraId) (status : TangoErrorType)
  | disconnect
  | getLatestPointCloudAndNewDataFlag (manager : Option Handle)
  | updateTexture (camera : CameraId) (status : TangoErrorType)
  | getPoseAtTime (timestamp : Rat) (pair : CoordinateFramePair)
  | log (message : String)
  | renderDepthToTexture (transform : Mat4) (buffer : TangoXYZij)
      (newPoints : Bool)
  | updateAndUpsampleDepth (transform : Mat4) (buffer : TangoXYZij)
  | sceneRender (colorTexture : Nat) (depthTexture : Nat)
  | setDepthAlpha (alpha : Rat)
  | setCameraIntrinsics (intrinsics : TangoCameraIntrinsics)
  | initializeGL
  | setupViewPort (width : Int) (height : Int)
deriving DecidableEq

/-- True exactly on `Event.log` events. -/
def Event.isLog : Event → Bool
  | .log _ => true
  | _ => false

/-- True exactly on the two depth operations delegated to `depth_image_`. -/
def Event.isDepthOp : Event → Bool
  | .renderDepthToTexture _ _ _ => true
  | .updateAndUpsampleDepth _ _ => true
  | _ => false

/-- True exactly on `Event.sceneRender`. -/
def Event.isSceneRender : Event → Bool
  | .sceneRender _ _ => true
  | _ => false

/-- The fields of `SynchronizationApplication` (taken from their uses in the
translation unit): the two SDK handles, the GPU-upsample flag, the screen
dimensions, the fixed world-convention transform `OW_T_SS_`, the pointer
`render_buffer_`, and the observable state held by the helper members
`color_image_`, `depth_image_` and `main_scene_`. -/
structure AppState where
  tango_config_ : Option Handle
  point_cloud_manager_ : Option Handle
  gpu_upsample_ : Bool
  screen_width_ : Rat
  screen_height_ : Rat
  OW_T_SS_ : Mat4
  render_buffer_ : TangoXYZij
  colorTextureId : Nat
  depthTextureId : Nat
  sceneDepthAlpha : Rat
  depthImageIntrinsics : Option TangoCameraIntrinsics
  sceneIntrinsics : Option TangoCameraIntrinsics
deriving DecidableEq

/-- The constant `tango_gl::conversions::opengl_world_T_tango_world()`.
Modelled from the spec: the function itself lives in the tango-gl support
library, outside the sources at hand; the spec describes it only as "a fixed
coordinate-convention transform between the rendering world frame and the
sensor world frame" (OpenGL is Y-up, Tango is Z-up).  It is embedded as the
fixed basis-change matrix mapping Z-up to Y-up; the claims below depend only
on it being a fixed constant. -/
def opengl_world_T_tango_world : Mat4 := fun i j =>
  if i = 0 ∧ j = 0 then 1
  else if i = 1 ∧ j = 2 then 1
  else if i = 2 ∧ j = 1 then -1
  else if i = 3 ∧ j = 3 then 1
  else 0

namespace SynchronizationApplication

/-- The constructor `SynchronizationApplication()`: default-constructs the
helper members and initializes `OW_T_SS_` to
`opengl_world_T_tango_world()` and `gpu_upsample_` to `false`. -/
def init : AppState where
  tango_config_ := none
  point_cloud_manager_ := none
  gpu_upsample_ := false
  screen_width_ := 0
  screen_height_ := 0
  OW_T_SS_ := opengl_world_T_tango_world
  render_buffer_ := { timestamp := 0, xyz_count := 0 }
  colorTextureId := 0
  depthTextureId := 0
  sceneDepthAlpha := 0
  depthImageIntrinsics := none
  sceneIntrinsics := none

/-- Embedding of `OnXYZijAvailable`: forwards the received cloud to
`TangoSupport_updatePointCloud` on `point_cloud_manager_`; the returned
status is discarded. -/
def OnXYZijAvailable (s : AppState) (env : Env) (xyz_ij : TangoXYZij) :
    AppState × List Event :=
  (s, [Event.updatePointCloud s.point_cloud_manager_ xyz_ij
        env.updatePointCloudStatus])

/-- Embedding of `CheckTangoVersion`: true iff the version query succeeds and the
reported version is at least `min_tango_version`. -/
def CheckTangoVersion (s : AppState) (env : Env) (min_tango_version : Int) :
    AppState × Bool × List Event :=
  (s, (env.getTangoVersionStatus == TangoErrorType.success)
        && decide (env.tangoVersion ≥ min_tango_version),
   [Event.getTangoVersion env.getTangoVersionStatus])

/-- Embedding of `OnTangoServiceConnected`: sets the service binder and logs on
failure. -/
def OnTangoServiceConnected (s : AppState) (env : Env) :
    AppState × List Event :=
  (s, [Event.setBinder env.setBinderStatus] ++
      if env.setBinderStatus ≠ TangoErrorType.success then
        [Event.log "SynchronizationApplication: Failed to set Tango service binder with error code"]
      else [])

/-- Embedding of `SetDepthAlphaValue`: delegates to `main_scene_.SetDepthAlphaValue`. -/
def SetDepthAlphaValue (s : AppState) (alpha : Rat) : AppState × List Event :=
  ({ s with sceneDepthAlpha := alpha }, [Event.setDepthAlpha alpha])

/-- Embedding of `SetGPUUpsample`: sets `gpu_upsample_`. -/
def SetGPUUpsample (s : AppState) (on' : Bool) : AppState × List Event :=
  ({ s with gpu_upsample_ := on' }, [])

/-- Embedding of `TangoSetupConfig`: resets the depth-alpha value and GPU-upsample flag,
returns true at once if the config handle already exists, otherwise fetches
the default config, sets the three boolean flags, and (if needed) queries
`max_point_cloud_elements` and creates the point-cloud manager, aborting
with `false` at the first failure. -/
def TangoSetupConfig (s : AppState) (env : Env) :
    AppState × Bool × List Event :=
  let (s1, ev1) := SetDepthAlphaValue s 0
  let (s2, ev2) := SetGPUUpsample s1 false
  let pre := ev1 ++ ev2
  if s2.tango_config_.isSome then
    (s2, true, pre)
  else
    match env.getConfigResult with
    | none => (s2, false, pre ++ [Event.getConfig none])
    | some cfg =>
      let s3 := { s2 with tango_config_ := some cfg }
      let ev3 := pre ++ [Event.getConfig (some cfg)]
      let errDepth := env.setBoolStatus "config_enable_depth"
      let ev4 := ev3 ++ [Event.setBool "config_enable_depth" true errDepth]
      if errDepth ≠ TangoErrorType.success then
        (s3, false, ev4 ++ [Event.log "Failed to enable depth."])
      else
        let errColor := env.setBoolStatus "config_enable_color_camera"
        let ev5 := ev4 ++
          [Event.setBool "config_enable_color_camera" true errColor]
        if errColor ≠ TangoErrorType.success then
          (s3, false, ev5 ++
            [Event.log "Failed to set enable_color_camera configuration flag with error code"])
        else
          let errImu :=
            env.setBoolStatus "config_enable_low_latency_imu_integration"
          let ev6 := ev5 ++
            [Event.setBool "config_enable_low_latency_imu_integration" true
              errImu]
          if errImu ≠ TangoErrorType.success then
            (s3, false, ev6 ++
              [Event.log "Failed to enable low latency imu integration."])
          else
            if s3.point_cloud_manager_.isSome then
              (s3, true, ev6)
            else
              let errInt := env.getInt32Status
              let ev7 := ev6 ++
                [Event.getInt32 "max_point_cloud_elements" errInt]
              if errInt ≠ TangoErrorType.success then
                (s3, false, ev7 ++
                  [Event.log "Failed to query maximum number of point cloud elements."])
              else
                let errMgr := env.createPointCloudManagerStatus
                let ev8 := ev7 ++
                  [Event.createPointCloudManager env.maxPointCloudElements
                    errMgr]
                if errMgr ≠ TangoErrorType.success then
                  (s3, false, ev8)
                else
                  ({ s3 with
                      point_cloud_manager_ :=
                        some env.createdPointCloudManager },
                   true, ev8)

/-- Embedding of `TangoConnectTexture`: connects the color camera to the color image
texture; returns true iff the call succeeds (no log on failure). -/
def TangoConnectTexture (s : AppState) (env : Env) :
    AppState × Bool × List Event :=
  (s, env.connectTextureIdStatus == TangoErrorType.success,
   [Event.connectTextureId CameraId.color s.colorTextureId
      env.connectTextureIdStatus])

/-- Embedding of `TangoConnectCallbacks`: registers the depth callback; returns true iff
the call succeeds (no log on failure). -/
def TangoConnectCallbacks (s : AppState) (env : Env) :
    AppState × Bool × List Event :=
  (s, env.connectOnXYZijAvailableStatus == TangoErrorType.success,
   [Event.connectOnXYZijAvailable env.connectOnXYZijAvailableStatus])

/-- Embedding of `TangoConnect`: connects to the service, logging and returning false on
failure. -/
def TangoConnect (s : AppState) (env : Env) : AppState × Bool × List Event :=
  if env.connectStatus ≠ TangoErrorType.success then
    (s, false,
     [Event.connect env.connectStatus,
      Event.log "SynchronizationApplication: Failed to connect to the Tango service."])
  else
    (s, true, [Event.connect env.connectStatus])

/-- Embedding of `TangoSetIntrinsicsAndExtrinsics`: queries the color-camera intrinsics
and forwards them to `depth_image_` and `main_scene_`; logs and returns
false on failure. -/
def TangoSetIntrinsicsAndExtrinsics (s : AppState) (env : Env) :
    AppState × Bool × List Event :=
  let ev := [Event.getCameraIntrinsics CameraId.color
              env.getCameraIntrinsicsStatus]
  if env.getCameraIntrinsicsStatus ≠ TangoErrorType.success then
    (s, false, ev ++
      [Event.log "SynchronizationApplication: Failed to get the intrinsics for the color camera."])
  else
    ({ s with
        depthImageIntrinsics := some env.cameraIntrinsics
        sceneIntrinsics := some env.cameraIntrinsics },
     true,
     ev ++ [Event.setCameraIntrinsics env.cameraIntrinsics,
            Event.setCameraIntrinsics env.cameraIntrinsics])

/-- Embedding of `TangoDisconnect`: calls `TangoService_disconnect` (status ignored). -/
def TangoDisconnect (s : AppState) : AppState × List Event :=
  (s, [Event.disconnect])

/-- Embedding of `InitializeGLContent`: initializes the GL state of the three helper
objects. -/
def InitializeGLContent (s : AppState) : AppState × List Event :=
  (s, [Event.initializeGL, Event.initializeGL, Event.initializeGL])

/-- Embedding of `SetViewPort`: stores the screen dimensions and forwards them to
`main_scene_`. -/
def SetViewPort (s : AppState) (width height : Int) : AppState × List Event :=
  ({ s with screen_width_ := (width : Rat), screen_height_ := (height : Rat) },
   [Event.setupViewPort width height])

/-- The frame pair queried for the depth camera in `Render`. -/
def depthFramePair : CoordinateFramePair :=
  { base := CoordinateFrame.startOfService
    target := CoordinateFrame.cameraDepth }

/-- The frame pair queried for the color camera in `Render`. -/
def colorFramePair : CoordinateFramePair :=
  { base := CoordinateFrame.cameraColor
    target := CoordinateFrame.startOfService }

/-- Embedding of `Render`: fetches the latest point cloud, updates the color texture,
queries the depth pose at the cloud timestamp and the color pose at the
texture timestamp, and — when both pose status codes are valid — chains the
two poses and delegates to exactly one of the two depth operations followed
by the scene render.  Each failed SDK call is logged and execution
continues. -/
def Render (s : AppState) (env : Env) : AppState × List Event :=
  let s' := { s with render_buffer_ := env.latestPointCloud }
  let new_points := env.newDataFlag
  let depth_timestamp := s'.render_buffer_.timestamp
  let evFetch := [Event.getLatestPointCloudAndNewDataFlag
                    s.point_cloud_manager_]
  let evTex := [Event.updateTexture CameraId.color env.updateTextureStatus]
    ++ (if env.updateTextureStatus ≠ TangoErrorType.success then
          [Event.log "SynchronizationApplication: Failed to get a color image."]
        else [])
  let color_timestamp := env.colorTimestampOut
  let depthPoseResult := env.getPoseAtTime depth_timestamp depthFramePair
  let pose_start_service_T_depth_camera_t0 := depthPoseResult.2
  let evDepthPose := [Event.getPoseAtTime depth_timestamp depthFramePair]
    ++ (if depthPoseResult.1 ≠ TangoErrorType.success then
          [Event.log "SynchronizationApplication: Could not find a valid pose for the depth camera."]
        else [])
  let colorPoseResult := env.getPoseAtTime color_timestamp colorFramePair
  let pose_color_camera_t1_T_start_service := colorPoseResult.2
  let evColorPose := [Event.getPoseAtTime color_timestamp colorFramePair]
    ++ (if colorPoseResult.1 ≠ TangoErrorType.success then
          [Event.log "SynchronizationApplication: Could not find a valid pose for the color camera."]
        else [])
  let start_service_T_depth_camera_t0 :=
    env.matrixFromPose pose_start_service_T_depth_camera_t0
  let color_camera_t1_T_start_service :=
    env.matrixFromPose pose_color_camera_t1_T_start_service
  let evTail :=
    if pose_color_camera_t1_T_start_service.status_code
        = TangoPoseStatusType.valid then
      if pose_start_service_T_depth_camera_t0.status_code
          = TangoPoseStatusType.valid then
        let color_image_t1_T_depth_image_t0 :=
          Mat4.mul color_camera_t1_T_start_service
            start_service_T_depth_camera_t0
        (if s'.gpu_upsample_ then
          [Event.renderDepthToTexture color_image_t1_T_depth_image_t0
            s'.render_buffer_ new_points]
        else
          [Event.updateAndUpsampleDepth color_image_t1_T_depth_image_t0
            s'.render_buffer_]) ++
        [Event.sceneRender s'.colorTextureId s'.depthTextureId]
      else
        [Event.log "Invalid pose for ss_t_depth at time"]
    else
      [Event.log "Invalid pose for ss_t_color at time"]
  (s', evFetch ++ evTex ++ evDepthPose ++ evColorPose ++ evTail)

end SynchronizationApplication

/-- The public operations of `SynchronizationApplication`, with their
inputs. -/
inductive Op where
  | onXYZijAvailable (cloud : TangoXYZij)
  | checkTangoVersion (minVersion : Int)
  | onTangoServiceConnected
  | tangoSetupConfig
  | tangoConnectTexture
  | tangoConnectCallbacks
  | tangoConnect
  | tangoSetIntrinsicsAndExtrinsics
  | tangoDisconnect
  | initializeGLContent
  | setViewPort (width height : Int)
  | render
  | setDepthAlphaValue (alpha : Rat)
  | setGPUUpsample (on' : Bool)

/-- One invocation of any public operation, forgetting return values. -/
def step (s : AppState) (op : Op) (env : Env) : AppState × List Event :=
  match op with
  | .onXYZijAvailable cloud =>
      SynchronizationApplication.OnXYZijAvailable s env cloud
  | .checkTangoVersion minVersion =>
      let r := SynchronizationApplication.CheckTangoVersion s env minVersion
      (r.1, r.2.2)
  | .onTangoServiceConnected =>
      SynchronizationApplication.OnTangoServiceConnected s env
  | .tangoSetupConfig =>
      let r := SynchronizationApplication.TangoSetupConfig s env
      (r.1, r.2.2)
  | .tangoConnectTexture =>
      let r := SynchronizationApplication.TangoConnectTexture s env
      (r.1, r.2.2)
  | .tangoConnectCallbacks =>
      let r := SynchronizationApplication.TangoConnectCallbacks s env
      (r.1, r.2.2)
  | .tangoConnect =>
      let r := SynchronizationApplication.TangoConnect s env
      (r.1, r.2.2)
  | .tangoSetIntrinsicsAndExtrinsics =>
      let r := SynchronizationApplication.TangoSetIntrinsicsAndExtrinsics s env
      (r.1, r.2.2)
  | .tangoDisconnect => SynchronizationApplication.TangoDisconnect s
  | .initializeGLContent => SynchronizationApplication.InitializeGLContent s
  | .setViewPort w h => SynchronizationApplication.SetViewPort s w h
  | .render => SynchronizationApplication.Render s env
  | .setDepthAlphaValue a => SynchronizationApplication.SetDepthAlphaValue s a
  | .setGPUUpsample b => SynchronizationApplication.SetGPUUpsample s b

/-- A pose with a valid status code, used as concrete SDK output. -/
def poseValid : TangoPoseData where
  status_code := TangoPoseStatusType.valid
  timestamp := 0
  translation := fun _ => 0
  orientation := fun _ => 0

/-- Concrete intrinsics used as SDK output in concrete runs. -/
def intrinsicsBase : TangoCameraIntrinsics where
  width := 1280
  height := 720
  fx := 1
  fy := 1
  cx := 0
  cy := 0

/-- A fully succeeding SDK environment, used for concrete runs. -/
def envBase : Env where
  updatePointCloudStatus := TangoErrorType.success
  getTangoVersionStatus := TangoErrorType.success
  tangoVersion := 100
  setBinderStatus := TangoErrorType.success
  getConfigResult := some 1
  setBoolStatus := fun _ => TangoErrorType.success
  getInt32Status := TangoErrorType.success
  maxPointCloudElements := 60000
  createPointCloudManagerStatus := TangoErrorType.success
  createdPointCloudManager := 2
  connectTextureIdStatus := TangoErrorType.success
  connectOnXYZijAvailableStatus := TangoErrorType.success
  connectStatus := TangoErrorType.success
  getCameraIntrinsicsStatus := TangoErrorType.success
  cameraIntrinsics := intrinsicsBase
  latestPointCloud := { timestamp := 5, xyz_count := 3 }
  newDataFlag := true
  updateTextureStatus := TangoErrorType.success
  colorTimestampOut := 7
  getPoseAtTime := fun _ _ => (TangoErrorType.success, poseValid)
  matrixFromPose := fun _ => Mat4.id

/-- Variant of `envBase` with the color-texture update failing. -/
def envTexFail : Env := { envBase with updateTextureStatus := TangoErrorType.error }

/-- Variant of `envBase` with `TangoSupport_updatePointCloud` failing. -/
def envCloudFail : Env :=
  { envBase with updatePointCloudStatus := TangoErrorType.error }

/-- Variant of `envBase` with every status-returning call failing. -/
def envAllFail : Env :=
  { envBase with
      updatePointCloudStatus := TangoErrorType.error
      getTangoVersionStatus := TangoErrorType.error
      setBinderStatus := TangoErrorType.error
      getConfigResult := none
      setBoolStatus := fun _ => TangoErrorType.error
      getInt32Status := TangoErrorType.error
      createPointCloudManagerStatus := TangoErrorType.error
      connectTextureIdStatus := TangoErrorType.error
      connectOnXYZijAvailableStatus := TangoErrorType.error
      connectStatus := TangoErrorType.error
      getCameraIntrinsicsStatus := TangoErrorType.error
      updateTextureStatus := TangoErrorType.error
      getPoseAtTime := fun _ _ => (TangoErrorType.error, poseValid) }

/-- Copy of `env` with the new-data flag replaced. -/
def Env.withNewDataFlag (env : Env) (b : Bool) : Env :=
  { env with newDataFlag := b }

/-- A concrete point cloud. -/
def cloudBase : TangoXYZij where
  timestamp := 5
  xyz_count := 3

/-- The initial state with a config handle already present. -/
def stateWithConfig : AppState :=
  { SynchronizationApplication.init with tango_config_ := some 1 }

/-- The initial state with GPU upsampling selected. -/
def stateGpu : AppState :=
  { SynchronizationApplication.init with gpu_upsample_ := true }

open SynchronizationApplication

/-- C6: the depth callback `OnXYZijAvailable` only forwards the received
cloud to `TangoSupport_updatePointCloud` on the point-cloud manager and
modifies no field of the application object. -/
theorem onXYZijAvailable_only_updates_manager (s : AppState) (env : Env)
    (cloud : TangoXYZij) :
    (OnXYZijAvailable s env cloud).1 = s ∧
    (OnXYZijAvailable s env cloud).2 =
      [Event.updatePointCloud s.point_cloud_manager_ cloud
        env.updatePointCloudStatus] :=
  ⟨rfl, rfl⟩

/-- C9: `CheckTangoVersion` returns true iff the SDK version query succeeds
and the reported version is at least `min_tango_version`, for every
`min_tango_version`. -/
theorem checkTangoVersion_iff (s : AppState) (env : Env)
    (min_tango_version : Int) :
    (CheckTangoVersion s env min_tango_version).2.1 = true ↔
      (env.getTangoVersionStatus = TangoErrorType.success ∧
        min_tango_version ≤ env.tangoVersion) := by
  simp [CheckTangoVersion, Bool.and_eq_true, beq_iff_eq, decide_eq_true_eq,
    ge_iff_le]

/-- C7: `OW_T_SS_` is initialized by the constructor to
`opengl_world_T_tango_world` and no public operation of the application ever
changes it. -/
theorem ow_t_ss_fixed :
    SynchronizationApplication.init.OW_T_SS_ = opengl_world_T_tango_world ∧
    ∀ (s : AppState) (op : Op) (env : Env),
      (step s op env).1.OW_T_SS_ = s.OW_T_SS_ := by
  refine ⟨rfl, fun s op env => ?_⟩
  cases op <;>
    first
    | rfl
    | · simp only [step, TangoSetupConfig, SetDepthAlphaValue, SetGPUUpsample,
          TangoConnect, TangoSetIntrinsicsAndExtrinsics, Render]
        rcases env.getConfigResult with _ | cfg <;> dsimp <;>
          split_ifs <;> rfl

/-- C8: every call to `TangoSetupConfig` first resets the depth alpha value
to 0 and the GPU-upsample flag to false (overriding any earlier
`SetGPUUpsample` / `SetDepthAlphaValue`), and when the config handle already
exists it returns true at once, re-creating neither the config nor the
point-cloud manager. -/
theorem tangoSetupConfig_resets_then_short_circuits (s : AppState)
    (env : Env) :
    ((TangoSetupConfig s env).1.sceneDepthAlpha = 0 ∧
      (TangoSetupConfig s env).1.gpu_upsample_ = false) ∧
    (∀ cfg : Handle, s.tango_config_ = some cfg →
      TangoSetupConfig s env =
        ({ s with sceneDepthAlpha := 0, gpu_upsample_ := false }, true,
          [Event.setDepthAlpha 0])) := by
  constructor
  · rcases henv : env.getConfigResult with _ | cfg <;>
      simp [TangoSetupConfig, SetDepthAlphaValue, SetGPUUpsample, henv] <;>
      split_ifs <;> simp
  · intro cfg hcfg
    simp [TangoSetupConfig, SetDepthAlphaValue, SetGPUUpsample, hcfg]

/-- Witness for C8 at a state whose config handle exists. -/
theorem tangoSetupConfig_short_circuit_witness :
    TangoSetupConfig stateWithConfig envBase =
      ({ stateWithConfig with sceneDepthAlpha := 0, gpu_upsample_ := false },
        true, [Event.setDepthAlpha 0]) :=
  (tangoSetupConfig_resets_then_short_circuits stateWithConfig envBase).2 1 rfl

/-- C1: in `Render` the depth pose is queried at the point-cloud timestamp
under the (START_OF_SERVICE, CAMERA_DEPTH) frame pair and the color pose at
the color-texture timestamp under the (CAMERA_COLOR, START_OF_SERVICE) frame
pair, and a depth operation carrying the matrix product
`color_camera_t1_T_start_service * start_service_T_depth_camera_t0` is
issued exactly when both pose status codes are `TANGO_POSE_VALID`. -/
theorem render_pose_chain (s : AppState) (env : Env) :
    Event.getPoseAtTime env.latestPointCloud.timestamp depthFramePair
        ∈ (Render s env).2 ∧
    Event.getPoseAtTime env.colorTimestampOut colorFramePair
        ∈ (Render s env).2 ∧
    depthFramePair.base = CoordinateFrame.startOfService ∧
    depthFramePair.target = CoordinateFrame.cameraDepth ∧
    colorFramePair.base = CoordinateFrame.cameraColor ∧
    colorFramePair.target = CoordinateFrame.startOfService ∧
    (Render s env).2.filter Event.isDepthOp =
      (if (env.getPoseAtTime env.colorTimestampOut
              colorFramePair).2.status_code = TangoPoseStatusType.valid ∧
          (env.getPoseAtTime env.latestPointCloud.timestamp
              depthFramePair).2.status_code = TangoPoseStatusType.valid then
        (if s.gpu_upsample_ then
          [Event.renderDepthToTexture
            (Mat4.mul
              (env.matrixFromPose
                (env.getPoseAtTime env.colorTimestampOut colorFramePair).2)
              (env.matrixFromPose
                (env.getPoseAtTime env.latestPointCloud.timestamp
                  depthFramePair).2))
            env.latestPointCloud env.newDataFlag]
        else
          [Event.updateAndUpsampleDepth
            (Mat4.mul
              (env.matrixFromPose
                (env.getPoseAtTime env.colorTimestampOut colorFramePair).2)
              (env.matrixFromPose
                (env.getPoseAtTime env.latestPointCloud.timestamp
                  depthFramePair).2))
            env.latestPointCloud])
      else []) := by
  refine ⟨?_, ?_, rfl, rfl, rfl, rfl, ?_⟩
  · simp [Render]
  · simp [Render]
  · simp only [Render]
    split_ifs <;> simp_all [Event.isDepthOp]

/-- C2 counterexample: with both poses valid but the color-texture update
failing, `Render` still issues the scene render, so a failing SDK call
inside `Render` does not make the frame be skipped. -/
theorem render_tex_failure_still_renders :
    envTexFail.updateTextureStatus ≠ TangoErrorType.success ∧
    Event.sceneRender SynchronizationApplication.init.colorTextureId
        SynchronizationApplication.init.depthTextureId
      ∈ (Render SynchronizationApplication.init envTexFail).2 := by
  constructor
  · decide
  · simp [Render, envTexFail, envBase, SynchronizationApplication.init,
      poseValid]

/-- C2 amended: SDK failures inside `Render` are non-fatal; rendering is
gated only on the two pose status codes: the scene render is issued iff
both are `TANGO_POSE_VALID`, irrespective of any failed SDK call in
`Render`. -/
theorem render_gating_iff (s : AppState) (env : Env) :
    (Event.sceneRender s.colorTextureId s.depthTextureId
        ∈ (Render s env).2) ↔
      ((env.getPoseAtTime env.colorTimestampOut
          colorFramePair).2.status_code = TangoPoseStatusType.valid ∧
        (env.getPoseAtTime env.latestPointCloud.timestamp
          depthFramePair).2.status_code = TangoPoseStatusType.valid) := by
  simp only [Render]
  split_ifs <;> simp_all

/-- C3 counterexample: `OnXYZijAvailable` issues
`TangoSupport_updatePointCloud`, and when that call fails no message is
logged (its status is never looked at), so not every SDK call has a logged
failure check. -/
theorem update_point_cloud_failure_unlogged :
    envCloudFail.updatePointCloudStatus ≠ TangoErrorType.success ∧
    (OnXYZijAvailable SynchronizationApplication.init envCloudFail
        cloudBase).2.filter Event.isLog = [] := by
  exact ⟨by decide, rfl⟩

/-- C3 amended: the binder, connect, intrinsics, texture-update and both
pose queries log a message when they fail, but
`TangoSupport_updatePointCloud`, `TangoService_connectTextureId`,
`TangoService_connectOnXYZijAvailable`, `TangoSupport_GetTangoVersion` and
`TangoService_disconnect` never log (the first is not even status-checked,
the next three are checked only through their boolean return, the last is
fire-and-forget). -/
theorem sdk_failure_logging (s : AppState) (env : Env) (cloud : TangoXYZij)
    (min_tango_version : Int) :
    (env.updateTextureStatus ≠ TangoErrorType.success →
      Event.log "SynchronizationApplication: Failed to get a color image."
        ∈ (Render s env).2) ∧
    ((env.getPoseAtTime env.latestPointCloud.timestamp depthFramePair).1
        ≠ TangoErrorType.success →
      Event.log "SynchronizationApplication: Could not find a valid pose for the depth camera."
        ∈ (Render s env).2) ∧
    ((env.getPoseAtTime env.colorTimestampOut colorFramePair).1
        ≠ TangoErrorType.success →
      Event.log "SynchronizationApplication: Could not find a valid pose for the color camera."
        ∈ (Render s env).2) ∧
    (env.setBinderStatus ≠ TangoErrorType.success →
      Event.log "SynchronizationApplication: Failed to set Tango service binder with error code"
        ∈ (OnTangoServiceConnected s env).2) ∧
    (env.connectStatus ≠ TangoErrorType.success →
      Event.log "SynchronizationApplication: Failed to connect to the Tango service."
        ∈ (TangoConnect s env).2.2) ∧
    (env.getCameraIntrinsicsStatus ≠ TangoErrorType.success →
      Event.log "SynchronizationApplication: Failed to get the intrinsics for the color camera."
        ∈ (TangoSetIntrinsicsAndExtrinsics s env).2.2) ∧
    (OnXYZijAvailable s env cloud).2.filter Event.isLog = [] ∧
    (TangoConnectTexture s env).2.2.filter Event.isLog = [] ∧
    (TangoConnectCallbacks s env).2.2.filter Event.isLog = [] ∧
    (CheckTangoVersion s env min_tango_version).2.2.filter Event.isLog = [] ∧
    (TangoDisconnect s).2.filter Event.isLog = [] := by
  refine ⟨fun h => ?_, fun h => ?_, fun h => ?_, fun h => ?_, fun h => ?_,
    fun h => ?_, rfl, rfl, rfl, rfl, rfl⟩
  · simp [Render, h]
  · simp [Render, h]
  · simp [Render, h]
  · simp [OnTangoServiceConnected, h]
  · simp [TangoConnect, h]
  · simp [TangoSetIntrinsicsAndExtrinsics, h]

/-- Witness for C3 amended: with every SDK call failing, the logged
failures appear in the traces. -/
theorem sdk_failure_logging_witness :
    (Event.log "SynchronizationApplication: Failed to get a color image."
        ∈ (Render SynchronizationApplication.init envAllFail).2) ∧
    (Event.log "SynchronizationApplication: Failed to connect to the Tango service."
        ∈ (TangoConnect SynchronizationApplication.init envAllFail).2.2) ∧
    (Event.log "SynchronizationApplication: Failed to set Tango service binder with error code"
        ∈ (OnTangoServiceConnected SynchronizationApplication.init
            envAllFail).2) := by
  have h := sdk_failure_logging SynchronizationApplication.init envAllFail
    cloudBase 0
  exact ⟨h.1 (by decide), h.2.2.2.2.1 (by decide), h.2.2.2.1 (by decide)⟩

/-- The state of `TangoSetupConfig` after the resets and a successful
`TangoService_getConfig`. -/
def configuredState (s : AppState) (cfg : Handle) : AppState :=
  { s with sceneDepthAlpha := 0, gpu_upsample_ := false, tango_config_ := some cfg }

/-- C4: each failing setup step makes `TangoSetupConfig` return false with
no later setup step executed, and a failing `TangoService_connect` makes
`TangoConnect` return false. -/
theorem setup_failures_abort (s : AppState) (env : Env)
    (h : s.tango_config_ = none) :
    (env.getConfigResult = none →
      TangoSetupConfig s env =
        ({ s with sceneDepthAlpha := 0, gpu_upsample_ := false }, false,
          [Event.setDepthAlpha 0, Event.getConfig none])) ∧
    (∀ cfg : Handle, env.getConfigResult = some cfg →
      (env.setBoolStatus "config_enable_depth" ≠ TangoErrorType.success →
        TangoSetupConfig s env =
          (configuredState s cfg, false,
            [Event.setDepthAlpha 0, Event.getConfig (some cfg),
             Event.setBool "config_enable_depth" true
               (env.setBoolStatus "config_enable_depth"),
             Event.log "Failed to enable depth."])) ∧
      (env.setBoolStatus "config_enable_depth" = TangoErrorType.success →
       env.setBoolStatus "config_enable_color_camera"
          ≠ TangoErrorType.success →
        TangoSetupConfig s env =
          (configuredState s cfg, false,
            [Event.setDepthAlpha 0, Event.getConfig (some cfg),
             Event.setBool "config_enable_depth" true TangoErrorType.success,
             Event.setBool "config_enable_color_camera" true
               (env.setBoolStatus "config_enable_color_camera"),
             Event.log "Failed to set enable_color_camera configuration flag with error code"])) ∧
      (env.setBoolStatus "config_enable_depth" = TangoErrorType.success →
       env.setBoolStatus "config_enable_color_camera"
          = TangoErrorType.success →
       env.setBoolStatus "config_enable_low_latency_imu_integration"
          ≠ TangoErrorType.success →
        TangoSetupConfig s env =
          (configuredState s cfg, false,
            [Event.setDepthAlpha 0, Event.getConfig (some cfg),
             Event.setBool "config_enable_depth" true TangoErrorType.success,
             Event.setBool "config_enable_color_camera" true
               TangoErrorType.success,
             Event.setBool "config_enable_low_latency_imu_integration" true
               (env.setBoolStatus "config_enable_low_latency_imu_integration"),
             Event.log "Failed to enable low latency imu integration."])) ∧
      (env.setBoolStatus "config_enable_depth" = TangoErrorType.success →
       env.setBoolStatus "config_enable_color_camera"
          = TangoErrorType.success →
       env.setBoolStatus "config_enable_low_latency_imu_integration"
          = TangoErrorType.success →
       s.point_cloud_manager_ = none →
       env.getInt32Status ≠ TangoErrorType.success →
        TangoSetupConfig s env =
          (configuredState s cfg, false,
            [Event.setDepthAlpha 0, Event.getConfig (some cfg),
             Event.setBool "config_enable_depth" true TangoErrorType.success,
             Event.setBool "config_enable_color_camera" true
               TangoErrorType.success,
             Event.setBool "config_enable_low_latency_imu_integration" true
               TangoErrorType.success,
             Event.getInt32 "max_point_cloud_elements" env.getInt32Status,
             Event.log "Failed to query maximum number of point cloud elements."])) ∧
      (env.setBoolStatus "config_enable_depth" = TangoErrorType.success →
       env.setBoolStatus "config_enable_color_camera"
          = TangoErrorType.success →
       env.setBoolStatus "config_enable_low_latency_imu_integration"
          = TangoErrorType.success →
       s.point_cloud_manager_ = none →
       env.getInt32Status = TangoErrorType.success →
       env.createPointCloudManagerStatus ≠ TangoErrorType.success →
        TangoSetupConfig s env =
          (configuredState s cfg, false,
            [Event.setDepthAlpha 0, Event.getConfig (some cfg),
             Event.setBool "config_enable_depth" true TangoErrorType.success,
             Event.setBool "config_enable_color_camera" true
               TangoErrorType.success,
             Event.setBool "config_enable_low_latency_imu_integration" true
               TangoErrorType.success,
             Event.getInt32 "max_point_cloud_elements" TangoErrorType.success,
             Event.createPointCloudManager env.maxPointCloudElements
               env.createPointCloudManagerStatus]))) ∧
    (env.connectStatus ≠ TangoErrorType.success →
      TangoConnect s env =
        (s, false,
          [Event.connect env.connectStatus,
           Event.log "SynchronizationApplication: Failed to connect to the Tango service."])) := by
  refine ⟨fun hc => ?_, fun cfg hc => ⟨fun h1 => ?_, fun h1 h2 => ?_,
    fun h1 h2 h3 => ?_, fun h1 h2 h3 hm h4 => ?_,
    fun h1 h2 h3 hm h4 h5 => ?_⟩, fun hc => ?_⟩ <;>
    simp_all [TangoSetupConfig, SetDepthAlphaValue, SetGPUUpsample,
      TangoConnect, configuredState]

/-- Witness for C4: with a null default config the setup aborts at once. -/
theorem setup_failures_abort_witness :
    TangoSetupConfig SynchronizationApplication.init envAllFail =
      ({ SynchronizationApplication.init with
          sceneDepthAlpha := 0, gpu_upsample_ := false }, false,
        [Event.setDepthAlpha 0, Event.getConfig none]) :=
  (setup_failures_abort SynchronizationApplication.init envAllFail rfl).1 rfl

/-- C5: on every frame with both poses valid, `Render` issues exactly one of
the two depth operations — `RenderDepthToTexture` when `gpu_upsample_` is
true, `UpdateAndUpsampleDepth` when it is false — and in either case follows
it with the scene render. -/
theorem render_upsample_selection (s : AppState) (env : Env)
    (hc : (env.getPoseAtTime env.colorTimestampOut
        colorFramePair).2.status_code = TangoPoseStatusType.valid)
    (hd : (env.getPoseAtTime env.latestPointCloud.timestamp
        depthFramePair).2.status_code = TangoPoseStatusType.valid) :
    ∃ pre : List Event,
      (Render s env).2 =
        pre ++
          [(if s.gpu_upsample_ then
              Event.renderDepthToTexture
                (Mat4.mul
                  (env.matrixFromPose
                    (env.getPoseAtTime env.colorTimestampOut
                      colorFramePair).2)
                  (env.matrixFromPose
                    (env.getPoseAtTime env.latestPointCloud.timestamp
                      depthFramePair).2))
                env.latestPointCloud env.newDataFlag
            else
              Event.updateAndUpsampleDepth
                (Mat4.mul
                  (env.matrixFromPose
                    (env.getPoseAtTime env.colorTimestampOut
                      colorFramePair).2)
                  (env.matrixFromPose
                    (env.getPoseAtTime env.latestPointCloud.timestamp
                      depthFramePair).2))
                env.latestPointCloud),
           Event.sceneRender s.colorTextureId s.depthTextureId] ∧
      pre.filter Event.isDepthOp = [] ∧
      pre.filter Event.isSceneRender = [] := by
  refine ⟨[Event.getLatestPointCloudAndNewDataFlag s.point_cloud_manager_] ++
    ([Event.updateTexture CameraId.color env.updateTextureStatus] ++
      (if env.updateTextureStatus ≠ TangoErrorType.success then
        [Event.log "SynchronizationApplication: Failed to get a color image."]
      else [])) ++
    ([Event.getPoseAtTime env.latestPointCloud.timestamp depthFramePair] ++
      (if (env.getPoseAtTime env.latestPointCloud.timestamp
            depthFramePair).1 ≠ TangoErrorType.success then
        [Event.log "SynchronizationApplication: Could not find a valid pose for the depth camera."]
      else [])) ++
    ([Event.getPoseAtTime env.colorTimestampOut colorFramePair] ++
      (if (env.getPoseAtTime env.colorTimestampOut colorFramePair).1
          ≠ TangoErrorType.success then
        [Event.log "SynchronizationApplication: Could not find a valid pose for the color camera."]
      else [])), ?_, ?_, ?_⟩
  · by_cases hg : s.gpu_upsample_ <;> simp [Render, hc, hd, hg]
  · split_ifs <;> rfl
  · split_ifs <;> rfl

/-- Witness for C5: a concrete all-valid frame on the CPU path. -/
theorem render_upsample_selection_witness :
    ∃ pre : List Event,
      (Render SynchronizationApplication.init envBase).2 =
        pre ++
          [Event.updateAndUpsampleDepth (Mat4.mul Mat4.id Mat4.id)
             envBase.latestPointCloud,
           Event.sceneRender 0 0] ∧
      pre.filter Event.isDepthOp = [] ∧
      pre.filter Event.isSceneRender = [] := by
  have h := render_upsample_selection SynchronizationApplication.init envBase
    rfl rfl
  simpa [SynchronizationApplication.init, envBase] using h

/-- C10: `Render` takes the depth timestamp from the fetched buffer
regardless of the new-data flag, passes the flag only to the GPU path, and
on the CPU path its behaviour does not depend on the flag at all. -/
theorem render_new_data_flag_usage (s : AppState) (env : Env)
    (b₁ b₂ : Bool) :
    (Event.getPoseAtTime env.latestPointCloud.timestamp depthFramePair
        ∈ (Render s (env.withNewDataFlag b₁)).2) ∧
    ((Render s (env.withNewDataFlag b₁)).2.filter Event.isDepthOp =
      (if (env.getPoseAtTime env.colorTimestampOut
              colorFramePair).2.status_code = TangoPoseStatusType.valid ∧
          (env.getPoseAtTime env.latestPointCloud.timestamp
              depthFramePair).2.status_code = TangoPoseStatusType.valid then
        (if s.gpu_upsample_ then
          [Event.renderDepthToTexture
            (Mat4.mul
              (env.matrixFromPose
                (env.getPoseAtTime env.colorTimestampOut colorFramePair).2)
              (env.matrixFromPose
                (env.getPoseAtTime env.latestPointCloud.timestamp
                  depthFramePair).2))
            env.latestPointCloud b₁]
        else
          [Event.updateAndUpsampleDepth
            (Mat4.mul
              (env.matrixFromPose
                (env.getPoseAtTime env.colorTimestampOut colorFramePair).2)
              (env.matrixFromPose
                (env.getPoseAtTime env.latestPointCloud.timestamp
                  depthFramePair).2))
            env.latestPointCloud])
      else [])) ∧
    (s.gpu_upsample_ = false →
      Render s (env.withNewDataFlag b₁) = Render s (env.withNewDataFlag b₂)) := by
  refine ⟨?_, ?_, fun hg => ?_⟩
  · simp [Render, Env.withNewDataFlag]
  · simp only [Render, Env.withNewDataFlag]
    split_ifs <;> simp_all [Event.isDepthOp]
  · simp [Render, Env.withNewDataFlag, hg]

/-- Witness for C10: on the CPU path the rendered frame is identical for
both values of the new-data flag. -/
theorem render_new_data_flag_usage_witness :
    Render SynchronizationApplication.init (envBase.withNewDataFlag true) =
      Render SynchronizationApplication.init (envBase.withNewDataFlag false) :=
  (render_new_data_flag_usage SynchronizationApplication.init envBase
    true false).2.2 rfl

end RgbDepthSync
